import Mathlib

/-!
Shallow embedding of `src/scripts/Dataprocessing_script.py`: synthetic
insurance data generation, the chi-squared and Welch t-test analyses, and
the pipe-delimited to CSV file converter, together with proofs of the
specified properties.
-/

/-- One row of the generated dataset: columns Province, Gender, Claimed. -/
structure Record where
  province : String
  gender : String
  claimed : Nat
deriving DecidableEq

/-- Model of the numpy global random state: the seed last passed to
np.random.seed together with the number of draws consumed since. -/
structure NpRandomState where
  seed : Nat
  pos : Nat
deriving DecidableEq

/-- Python exceptions that the modelled library calls can raise. -/
inductive PyError where
  | valueError : String → PyError
  | invalidArgument : String → PyError
deriving DecidableEq

/-- One step of a 32-bit linear congruential generator.  The script only
needs the pseudo-random source to be a fixed deterministic stream of the
seed (numpy's exact Mersenne Twister values are irrelevant to every
property proved below), so the stream is modelled by an LCG. -/
def lcgStep (x : Nat) : Nat := (1664525 * x + 1013904223) % 4294967296

/-- Iterated LCG: state after i + 1 steps from the seed. -/
def lcgIter (seed : Nat) : Nat → Nat
  | 0 => lcgStep seed
  | n + 1 => lcgStep (lcgIter seed n)

/-- Raw 32-bit draw number i of the stream determined by the seed. -/
def npRaw (seed i : Nat) : Nat := lcgIter seed i

/-- Model of np.random.rand: draw i as a rational in the interval [0, 1). -/
def npUniform (seed i : Nat) : ℚ := (npRaw seed i % 2147483648 : ℚ) / 2147483648

/-- Model of np.random.seed: resets the global stream. -/
def np_random_seed (s : Nat) (_st : NpRandomState) : NpRandomState := ⟨s, 0⟩

/-- Model of one element of np.random.choice(xs, n): draw i selects an
index into xs. -/
def npChoice (seed i : Nat) (xs : List String) : String :=
  xs.getD (npRaw seed i % xs.length) ""

/-- The fixed province list of the script. -/
def provinces : List String := ["Province_A", "Province_B", "Province_C"]

/-- The fixed gender list of the script. -/
def genders : List String := ["Male", "Female"]

/-- Per-province claim rates: defined in the script and never used by the
claim generation, exactly as in the source. -/
def claim_rates_province : String → ℚ := fun p =>
  if p = "Province_A" then 1 / 10
  else if p = "Province_B" then 9 / 10
  else if p = "Province_C" then 1 / 5
  else 0

/-- Per-gender claim rates used for the Bernoulli draw of Claimed. -/
def claim_rates_gender : String → ℚ := fun g =>
  if g = "Male" then 3 / 5
  else if g = "Female" then 1 / 5
  else 0

/-- Body of generate_insurance_data after the np.random.seed(42) call
(which resets the stream position to 0, so draw positions are absolute):
choose n provinces (draws 0..n-1), n genders (draws n..2n-1), then the
Claimed flags (draws 2n..3n-1).  provTable is received like the source's
claim_rates_province dictionary and, like it, is never read. -/
def generateRows (seed : Nat) (provTable genTable : String → ℚ) (n : Nat) :
    List Record :=
  let province_choices := (List.range n).map fun i => npChoice seed i provinces
  let gender_choices := (List.range n).map fun i => npChoice seed (n + i) genders
  let claims := (List.range n).map fun i =>
    if npUniform seed (2 * n + i) < genTable (gender_choices.getD i "") then 1 else 0
  (List.range n).map fun i =>
    ⟨province_choices.getD i "", gender_choices.getD i "", claims.getD i 0⟩

/-- The script function: seeds the global RNG with 42, then builds the
DataFrame column by column.  The state component records the numpy global
state after the call (seeded with 42, three times n draws consumed). -/
def generate_insurance_data (num_records : Nat) (st : NpRandomState) :
    List Record × NpRandomState :=
  let st1 := np_random_seed 42 st
  (generateRows st1.seed claim_rates_province claim_rates_gender num_records,
   ⟨st1.seed, st1.pos + 3 * num_records⟩)

/-- Python-level wrapper taking the record count as an integer:
generate_insurance_data itself validates nothing; np.random.choice raises
ValueError for a negative size, and a zero size succeeds with an empty
array. -/
def generate_insurance_data_py (num_records : Int) (st : NpRandomState) :
    Except PyError (List Record × NpRandomState) :=
  if num_records < 0 then
    Except.error (PyError.valueError "negative dimensions are not allowed")
  else
    Except.ok (generate_insurance_data num_records.toNat st)

/-- Distinct Province values of a dataset in order of first appearance
(the crosstab row labels). -/
def provVals (d : List Record) : List String := (d.map fun r => r.province).dedup

/-- Distinct Claimed values of a dataset (the crosstab column labels). -/
def claimedVals (d : List Record) : List Nat := (d.map fun r => r.claimed).dedup

/-- Cell of the Province × Claimed contingency table. -/
def ctCell (d : List Record) (p : String) (c : Nat) : Nat :=
  (d.filter fun r => r.province == p && r.claimed == c).length

/-- Number of records of province p. -/
def rowSumD (d : List Record) (p : String) : Nat :=
  (d.filter fun r => r.province == p).length

/-- Number of records with claimed value c. -/
def colSumD (d : List Record) (c : Nat) : Nat :=
  (d.filter fun r => r.claimed == c).length

/-- Contingency table: labelled rows and columns of counts. -/
structure ContingencyTable where
  rowLabels : List String
  colLabels : List Nat
  cells : List (List Nat)
deriving DecidableEq

/-- Model of pd.crosstab(data.Province, data.Claimed): one row per
observed province, one column per observed claimed value. -/
def crosstab (d : List Record) : ContingencyTable :=
  ⟨provVals d, claimedVals d,
   (provVals d).map fun p => (claimedVals d).map fun c => ctCell d p c⟩

/-- Expected frequency of the chi-squared test at cell (p, c). -/
def expectedCell (d : List Record) (p : String) (c : Nat) : ℚ :=
  ((rowSumD d p : ℚ) * (colSumD d c : ℚ)) / (d.length : ℚ)

/-- Guard of scipy.stats.chi2_contingency: it raises ValueError exactly
when some expected frequency of the table is zero. -/
def hasZeroExpected (d : List Record) : Bool :=
  (provVals d).any fun p => (claimedVals d).any fun c =>
    decide (expectedCell d p c = 0)

/-- Chi-squared statistic of the contingency table of d. -/
def chi2Statistic (d : List Record) : ℚ :=
  ((provVals d).map fun p =>
    ((claimedVals d).map fun c =>
      ((ctCell d p c : ℚ) - expectedCell d p c) ^ 2 / expectedCell d p c).sum).sum

/-- Output of the chi-squared analysis: statistic, degrees of freedom and
the contingency table. -/
structure Chi2Result where
  statistic : ℚ
  dof : Nat
  table : ContingencyTable
deriving DecidableEq

/-- Model of preprocessing_script: builds the crosstab and runs
scipy.stats.chi2_contingency, which raises ValueError on a zero expected
frequency and returns statistic 0 when the degrees of freedom are 0; the
p-value (a real-valued chi-squared tail probability of the statistic) is
outside the rational model and not represented.  The second component is
the caller's dataframe after the call. -/
def preprocessing_script (d : List Record) :
    Except PyError Chi2Result × List Record :=
  if hasZeroExpected d then
    (Except.error (PyError.valueError
      "The internally computed table of expected frequencies has a zero element"), d)
  else
    let ct := crosstab d
    let dof := (ct.rowLabels.length - 1) * (ct.colLabels.length - 1)
    (Except.ok ⟨if dof = 0 then 0 else chi2Statistic d, dof, ct⟩, d)

/-- Model of np.mean: the mean of an empty array is NaN (none). -/
def npMean (xs : List ℚ) : Option ℚ :=
  if xs.length = 0 then none else some (xs.sum / (xs.length : ℚ))

/-- Sample variance with ddof = 1, NaN (none) for fewer than two points. -/
def sampleVarQ (xs : List ℚ) : Option ℚ :=
  if xs.length < 2 then none
  else some ((xs.map fun x => (x - xs.sum / (xs.length : ℚ)) ^ 2).sum
    / ((xs.length : ℚ) - 1))

/-- Value of the Welch statistic in the float model: NaN, a signed
infinity, or a finite value carried as the pair of t squared and the sign
of t, since t itself involves a square root. -/
inductive WelchStat where
  | undefinedStat : WelchStat
  | infiniteStat : Int → WelchStat
  | finiteStat : ℚ → Int → WelchStat
deriving DecidableEq

/-- Model of scipy.stats.ttest_ind(a, b, equal_var=False): the Welch
statistic; NaN inputs propagate, a zero denominator gives NaN or a signed
infinity, and no exception is ever raised.  The p-value (a real-valued
t-distribution tail probability) is outside the rational model and not
represented. -/
def ttest_core (m1 m2 v1 v2 : ℚ) (n1 n2 : Nat) : WelchStat :=
  let den := v1 / (n1 : ℚ) + v2 / (n2 : ℚ)
  if den = 0 then
    if m1 = m2 then WelchStat.undefinedStat
    else WelchStat.infiniteStat (if m2 < m1 then 1 else -1)
  else
    WelchStat.finiteStat ((m1 - m2) ^ 2 / den)
      (if m2 < m1 then 1 else if m1 = m2 then 0 else -1)

/-- Dispatch on NaN propagation for the Welch statistic. -/
def ttest_ind (a b : List ℚ) : WelchStat :=
  match npMean a, npMean b, sampleVarQ a, sampleVarQ b with
  | some m1, some m2, some v1, some v2 => ttest_core m1 m2 v1 v2 a.length b.length
  | _, _, _, _ => WelchStat.undefinedStat

/-- Claimed values of the records whose Gender is exactly "Male". -/
def male_claims (d : List Record) : List ℚ :=
  (d.filter fun r => r.gender == "Male").map fun r => (r.claimed : ℚ)

/-- Claimed values of the records whose Gender is exactly "Female". -/
def female_claims (d : List Record) : List ℚ :=
  (d.filter fun r => r.gender == "Female").map fun r => (r.claimed : ℚ)

/-- Model of gender_analysis: filters the two samples and runs the
Welch t-test; the second component is the caller's dataframe after the
call. -/
def gender_analysis (d : List Record) : Except PyError WelchStat × List Record :=
  (Except.ok (ttest_ind (male_claims d) (female_claims d)), d)

/-- Whether an Except value is a success. -/
def exceptOk {ε α : Type} : Except ε α → Bool
  | Except.ok _ => true
  | Except.error _ => false

/-- Example dataset whose Province_A records all have Claimed equal 0. -/
def dAllZeroA : List Record :=
  [⟨"Province_A", "Male", 0⟩, ⟨"Province_A", "Female", 0⟩,
   ⟨"Province_B", "Male", 1⟩, ⟨"Province_B", "Female", 0⟩,
   ⟨"Province_C", "Male", 1⟩]

/-- Example dataset with no Female record. -/
def dNoFemale : List Record := [⟨"Province_A", "Male", 1⟩]

/-- Example dataset with no Male record. -/
def dNoMale : List Record := [⟨"Province_A", "Female", 0⟩]

/-- Example dataset containing a record of a third gender value. -/
def dOtherGender : List Record :=
  [⟨"Province_A", "Other", 1⟩, ⟨"Province_A", "Male", 0⟩]

/-- A record list is the dataset model throughout; a helper lemma layer
relates positional access to mapped ranges. -/
theorem getD_map_range {α : Type} (f : Nat → α) {n i : Nat} (hi : i < n) (d : α) :
    ((List.range n).map f).getD i d = f i := by
  rw [List.getD_eq_getElem?_getD]
  simp [List.getElem?_range, hi]

/-- Claim C1: the Claimed field of every generated record is a Bernoulli
draw decided solely by the record's Gender through claim_rates_gender
(3/5 for Male, 1/5 for Female); the province-indexed table has no
influence on the output. -/
theorem claimed_decided_by_gender_only (n : Nat) (st : NpRandomState)
    (P Q : String → ℚ) :
    generateRows 42 P claim_rates_gender n = generateRows 42 Q claim_rates_gender n
    ∧ claim_rates_gender "Male" = 3 / 5
    ∧ claim_rates_gender "Female" = 1 / 5
    ∧ ∀ i, i < n →
        ((generate_insurance_data n st).1.getD i ⟨"", "", 0⟩).claimed
          = (if npUniform 42 (2 * n + i)
                < claim_rates_gender
                    ((generate_insurance_data n st).1.getD i ⟨"", "", 0⟩).gender
             then 1 else 0) := by
  refine ⟨rfl, rfl, rfl, ?_⟩
  intro i hi
  simp only [generate_insurance_data, np_random_seed, generateRows, getD_map_range _ hi]

/-- Witness for C1 at n = 1, i = 0. -/
theorem claimed_decided_by_gender_only_witness :
    (generateRows 42 (fun _ => 0) claim_rates_gender 1
        = generateRows 42 (fun _ => 1) claim_rates_gender 1)
    ∧ ((generate_insurance_data 1 ⟨0, 0⟩).1.getD 0 ⟨"", "", 0⟩).claimed
        = (if npUniform 42 2
              < claim_rates_gender
                  ((generate_insurance_data 1 ⟨0, 0⟩).1.getD 0 ⟨"", "", 0⟩).gender
           then 1 else 0) :=
  ⟨(claimed_decided_by_gender_only 1 ⟨0, 0⟩ (fun _ => 0) (fun _ => 1)).1,
   (claimed_decided_by_gender_only 1 ⟨0, 0⟩ (fun _ => 0) (fun _ => 1)).2.2.2 0 (by decide)⟩

/-- Claim C3: generate_insurance_data is deterministic; whatever the
incoming numpy global state, any two invocations with the same count
return the same dataset, because the stream is reseeded with 42 first. -/
theorem generate_insurance_data_deterministic (n : Nat) (st st' : NpRandomState) :
    (generate_insurance_data n st).1 = (generate_insurance_data n st').1 := rfl

/-- A choice from a nonempty list is a member of it. -/
theorem npChoice_mem (seed i : Nat) (xs : List String) (hx : xs ≠ []) :
    npChoice seed i xs ∈ xs := by
  unfold npChoice
  have hlen : 0 < xs.length := List.length_pos.mpr hx
  have hlt : npRaw seed i % xs.length < xs.length := Nat.mod_lt _ hlen
  rw [List.getD_eq_getElem?_getD, List.getElem?_eq_getElem hlt]
  simp [List.getElem_mem hlt]

/-- Claim C2: for every requested count n ≥ 1 the generator returns
exactly n records, each with Province in the fixed 3-element set and
Gender in the fixed 2-element set. -/
theorem generate_count_and_domains (n : Nat) (st : NpRandomState) (_hn : 1 ≤ n) :
    (generate_insurance_data n st).1.length = n
    ∧ provinces.length = 3 ∧ genders.length = 2
    ∧ ∀ r ∈ (generate_insurance_data n st).1,
        r.province ∈ provinces ∧ r.gender ∈ genders := by
  refine ⟨?_, rfl, rfl, ?_⟩
  · simp [generate_insurance_data, generateRows, np_random_seed]
  · intro r hr
    simp only [generate_insurance_data, np_random_seed, generateRows, List.mem_map,
      List.mem_range] at hr
    obtain ⟨i, hi, rfl⟩ := hr
    simp only [getD_map_range _ hi]
    exact ⟨npChoice_mem _ _ _ (by simp [provinces]),
           npChoice_mem _ _ _ (by simp [genders])⟩

/-- Witness for C2 at n = 2. -/
theorem generate_count_and_domains_witness :
    (generate_insurance_data 2 ⟨0, 0⟩).1.length = 2
    ∧ provinces.length = 3 ∧ genders.length = 2
    ∧ ∀ r ∈ (generate_insurance_data 2 ⟨0, 0⟩).1,
        r.province ∈ provinces ∧ r.gender ∈ genders :=
  generate_count_and_domains 2 ⟨0, 0⟩ (by decide)

/-- Claim C6 counterexample: at num_records = 0 (a value the claim says
must fail with an InvalidArgument error) the generator does not fail at
all; it succeeds and returns the empty dataset. -/
theorem generate_py_zero_succeeds :
    generate_insurance_data_py 0 ⟨0, 0⟩ = Except.ok ([], ⟨42, 0⟩) := rfl

/-- Claim C6 amended: generate_insurance_data performs no record-count
validation and never raises InvalidArgument; a zero count succeeds with
an empty dataset, a negative count fails with the ValueError raised by
np.random.choice, and every count n ≥ 0 succeeds with exactly n
records. -/
theorem generate_py_error_behaviour (n : Int) (st : NpRandomState) :
    (∀ msg, generate_insurance_data_py n st ≠ Except.error (PyError.invalidArgument msg))
    ∧ (n < 0 →
        generate_insurance_data_py n st
          = Except.error (PyError.valueError "negative dimensions are not allowed"))
    ∧ (0 ≤ n → ∃ rows st2,
        generate_insurance_data_py n st = Except.ok (rows, st2)
          ∧ rows.length = n.toNat) := by
  refine ⟨?_, ?_, ?_⟩
  · intro msg h
    unfold generate_insurance_data_py at h
    split at h <;> simp_all
  · intro hn
    simp [generate_insurance_data_py, hn]
  · intro hn
    have hlt : ¬ n < 0 := Int.not_lt.mpr hn
    refine ⟨(generate_insurance_data n.toNat st).1, (generate_insurance_data n.toNat st).2,
      ?_, ?_⟩
    · simp [generate_insurance_data_py, hlt]
    · simp [generate_insurance_data, generateRows, np_random_seed]

/-- Witness for C6 amended at n = -1 and n = 2. -/
theorem generate_py_error_behaviour_witness :
    (generate_insurance_data_py (-1) ⟨0, 0⟩
        = Except.error (PyError.valueError "negative dimensions are not allowed"))
    ∧ ∃ rows st2, generate_insurance_data_py 2 ⟨0, 0⟩ = Except.ok (rows, st2)
        ∧ rows.length = 2 :=
  ⟨(generate_py_error_behaviour (-1) ⟨0, 0⟩).2.1 (by decide),
   by simpa using (generate_py_error_behaviour 2 ⟨0, 0⟩).2.2 (by decide)⟩

/-- Summing the indicator of x over a duplicate-free list containing x
gives exactly 1. -/
theorem sum_indicator_one {β : Type} [DecidableEq β] (ks : List β) (x : β)
    (hnd : ks.Nodup) (hx : x ∈ ks) :
    (ks.map fun k => if x = k then (1 : Nat) else 0).sum = 1 := by
  induction ks with
  | nil => cases hx
  | cons k ks ih =>
    rw [List.nodup_cons] at hnd
    rcases List.mem_cons.mp hx with h | h
    · subst h
      have hz : (ks.map fun k => if x = k then (1 : Nat) else 0).sum = 0 := by
        refine List.sum_eq_zero ?_
        intro y hy
        obtain ⟨k', hk', rfl⟩ := List.mem_map.mp hy
        have hne : x ≠ k' := fun he => hnd.1 (he ▸ hk')
        simp [hne]
      simp [hz]
    · have hne : x ≠ k := fun he => hnd.1 (he ▸ h)
      simp [hne, ih hnd.2 h]

/-- Counting a list through the fibres of a key function, over a
duplicate-free list covering the image, recovers the length. -/
theorem sum_filter_key {α β : Type} [DecidableEq β] (l : List α) (f : α → β)
    (ks : List β) (hnd : ks.Nodup) (hcov : ∀ a ∈ l, f a ∈ ks) :
    (ks.map fun k => (l.filter fun a => f a == k).length).sum = l.length := by
  induction l with
  | nil => simp
  | cons a l ih =>
    have hstep : (fun k => ((a :: l).filter fun x => f x == k).length)
        = fun k => (if f a = k then (1 : Nat) else 0)
            + (l.filter fun x => f x == k).length := by
      funext k
      by_cases h : f a = k <;> simp [List.filter_cons, h] <;> omega
    rw [hstep]
    have hsplit : (ks.map fun k => (if f a = k then (1 : Nat) else 0)
          + (l.filter fun x => f x == k).length).sum
        = (ks.map fun k => if f a = k then (1 : Nat) else 0).sum
          + (ks.map fun k => (l.filter fun x => f x == k).length).sum := by
      induction ks with
      | nil => rfl
      | cons k ks ihk => simp [ihk]; omega
    rw [hsplit, sum_indicator_one ks (f a) hnd (hcov a (List.mem_cons_self a l)),
      ih fun x hx => hcov x (List.mem_cons_of_mem a hx)]
    simp [Nat.add_comm]

/-- Filtering by a conjunction is filtering twice, in either order. -/
theorem filter_and_comm {α : Type} (l : List α) (p q : α → Bool) :
    l.filter (fun r => p r && q r) = (l.filter p).filter q := by
  rw [List.filter_filter]
  exact List.filter_congr fun a _ => Bool.and_comm (p a) (q a)

/-- Each crosstab row sums to the record count of its province. -/
theorem ct_row_sum (d : List Record) (p : String) :
    ((claimedVals d).map fun c => ctCell d p c).sum = rowSumD d p := by
  have hcell : (fun c => ctCell d p c)
      = fun c => ((d.filter fun r => r.province == p).filter
          fun r => r.claimed == c).length := by
    funext c
    unfold ctCell
    rw [filter_and_comm d (fun r => r.province == p) (fun r => r.claimed == c)]
  rw [hcell]
  exact sum_filter_key (d.filter fun r => r.province == p) (fun r => r.claimed)
    (claimedVals d) (List.nodup_dedup _)
    (fun r hr => List.mem_dedup.mpr
      (List.mem_map.mpr ⟨r, List.mem_of_mem_filter hr, rfl⟩))

/-- Claim C8: the contingency table built by preprocessing_script has
non-negative integer cells, its row sums are the per-province record
counts, and all cells together sum to the dataset size. -/
theorem contingency_table_invariants (d : List Record) :
    (∀ row ∈ (crosstab d).cells, ∀ x ∈ row, 0 ≤ x)
    ∧ ((crosstab d).cells.map List.sum
        = (crosstab d).rowLabels.map fun p => rowSumD d p)
    ∧ ((crosstab d).cells.map List.sum).sum = d.length := by
  have hrows : (crosstab d).cells.map List.sum
      = (crosstab d).rowLabels.map fun p => rowSumD d p := by
    show ((provVals d).map fun p => (claimedVals d).map fun c => ctCell d p c).map List.sum
        = (provVals d).map fun p => rowSumD d p
    rw [List.map_map]
    exact List.map_congr_left fun p _ => ct_row_sum d p
  refine ⟨fun row _ x _ => Nat.zero_le x, hrows, ?_⟩
  rw [hrows]
  show ((provVals d).map fun p => (d.filter fun r => r.province == p).length).sum = d.length
  exact sum_filter_key d (fun r => r.province) (provVals d) (List.nodup_dedup _)
    (fun r hr => List.mem_dedup.mpr (List.mem_map.mpr ⟨r, hr, rfl⟩))

/-- A province label of the crosstab has at least one record. -/
theorem rowSumD_pos (d : List Record) (p : String) (hp : p ∈ provVals d) :
    0 < rowSumD d p := by
  obtain ⟨r, hr, rfl⟩ := List.mem_map.mp (List.mem_dedup.mp hp)
  have hmem : r ∈ d.filter fun x => x.province == r.province := by
    simp [List.mem_filter, hr]
  exact List.length_pos.mpr (List.ne_nil_of_mem hmem)

/-- A claimed-value label of the crosstab has at least one record. -/
theorem colSumD_pos (d : List Record) (c : Nat) (hc : c ∈ claimedVals d) :
    0 < colSumD d c := by
  obtain ⟨r, hr, rfl⟩ := List.mem_map.mp (List.mem_dedup.mp hc)
  have hmem : r ∈ d.filter fun x => x.claimed == r.claimed := by
    simp [List.mem_filter, hr]
  exact List.length_pos.mpr (List.ne_nil_of_mem hmem)

/-- Expected frequencies over the observed labels are strictly positive. -/
theorem expectedCell_pos (d : List Record) (hd : d ≠ [])
    (p : String) (hp : p ∈ provVals d) (c : Nat) (hc : c ∈ claimedVals d) :
    0 < expectedCell d p c := by
  unfold expectedCell
  have h1 : (0 : ℚ) < (rowSumD d p : ℚ) := by
    exact_mod_cast rowSumD_pos d p hp
  have h2 : (0 : ℚ) < (colSumD d c : ℚ) := by
    exact_mod_cast colSumD_pos d c hc
  have h3 : (0 : ℚ) < (d.length : ℚ) := by
    exact_mod_cast List.length_pos.mpr hd
  exact div_pos (mul_pos h1 h2) h3

/-- Claim C4 amended: for a nonempty dataset every expected frequency of
the crosstab is positive (crosstab only keeps observed categories, so no
row or column sum is zero), hence the chi-squared call never raises
ValueError and preprocessing_script always returns a result. -/
theorem preprocessing_script_never_raises (d : List Record) (hd : d ≠ []) :
    (∀ p ∈ provVals d, ∀ c ∈ claimedVals d, 0 < expectedCell d p c)
    ∧ ∃ res, preprocessing_script d = (Except.ok res, d) := by
  have hpos : ∀ p ∈ provVals d, ∀ c ∈ claimedVals d, 0 < expectedCell d p c :=
    fun p hp c hc => expectedCell_pos d hd p hp c hc
  refine ⟨hpos, ?_⟩
  have hz : hasZeroExpected d = false := by
    unfold hasZeroExpected
    simp only [List.any_eq_false, decide_eq_true_eq]
    intro p hp h
    simp only [List.any_eq_true, decide_eq_true_eq] at h
    obtain ⟨c, hc, hc0⟩ := h
    exact absurd hc0 (ne_of_gt (hpos p hp c hc))
  simp only [preprocessing_script, hz, Bool.false_eq_true, if_false]
  exact ⟨_, rfl⟩

/-- Witness for C4 amended on a one-record dataset. -/
theorem preprocessing_script_never_raises_witness :
    (∀ p ∈ provVals dNoFemale, ∀ c ∈ claimedVals dNoFemale,
        0 < expectedCell dNoFemale p c)
    ∧ ∃ res, preprocessing_script dNoFemale = (Except.ok res, dNoFemale) :=
  preprocessing_script_never_raises dNoFemale (by simp [dNoFemale])

/-- Claim C4 counterexample: in dAllZeroA the Province_A records all have
Claimed 0, the situation the claim says raises ValueError, yet the
chi-squared test succeeds. -/
theorem preprocessing_script_all_zero_province_ok :
    ((dAllZeroA.filter fun r => r.province == "Province_A").all
        fun r => r.claimed == 0) = true
    ∧ exceptOk (preprocessing_script dAllZeroA).1 = true := by
  refine ⟨rfl, ?_⟩
  have hz : hasZeroExpected dAllZeroA = false := by
    unfold hasZeroExpected
    simp only [List.any_eq_false, decide_eq_true_eq]
    intro p hp h
    simp only [List.any_eq_true, decide_eq_true_eq] at h
    obtain ⟨c, hc, hc0⟩ := h
    exact absurd hc0
      (ne_of_gt (expectedCell_pos dAllZeroA (by simp [dAllZeroA]) p hp c hc))
  simp [preprocessing_script, hz, exceptOk]

/-- Claim C9: neither statistical test mutates the dataset; the dataframe
after each call is the dataset passed in. -/
theorem tests_do_not_mutate (d : List Record) :
    (preprocessing_script d).2 = d ∧ (gender_analysis d).2 = d := by
  constructor
  · unfold preprocessing_script
    split <;> rfl
  · rfl

/-- The Welch call is NaN whenever the first sample mean is NaN. -/
theorem ttest_ind_nan_left (a b : List ℚ) (h : npMean a = none) :
    ttest_ind a b = WelchStat.undefinedStat := by
  unfold ttest_ind
  rw [h]

/-- The Welch call is NaN whenever the second sample mean is NaN. -/
theorem ttest_ind_nan_right (a b : List ℚ) (h : npMean b = none) :
    ttest_ind a b = WelchStat.undefinedStat := by
  unfold ttest_ind
  rcases ha : npMean a with _ | m1 <;> rw [h]

/-- Claim C5 amended: gender_analysis never raises any error; an empty
Male or Female sample makes the Welch statistic NaN, and two zero
variance samples with equal means make it NaN, and in every case the
value is returned rather than raised. -/
theorem gender_analysis_error_behaviour (d : List Record) :
    (∀ e, (gender_analysis d).1 ≠ Except.error e)
    ∧ ((male_claims d = [] ∨ female_claims d = []) →
        (gender_analysis d).1 = Except.ok WelchStat.undefinedStat)
    ∧ (∀ m, npMean (male_claims d) = some m → npMean (female_claims d) = some m →
        sampleVarQ (male_claims d) = some 0 → sampleVarQ (female_claims d) = some 0 →
        (gender_analysis d).1 = Except.ok WelchStat.undefinedStat) := by
  refine ⟨fun e h => by simp [gender_analysis] at h, ?_, ?_⟩
  · rintro (h | h)
    · have hm : npMean (male_claims d) = none := by simp [h, npMean]
      simp [gender_analysis, ttest_ind_nan_left _ _ hm]
    · have hm : npMean (female_claims d) = none := by simp [h, npMean]
      simp [gender_analysis, ttest_ind_nan_right _ _ hm]
  · intro m hm1 hm2 hv1 hv2
    have : ttest_ind (male_claims d) (female_claims d) = WelchStat.undefinedStat := by
      unfold ttest_ind
      rw [hm1, hm2, hv1, hv2]
      simp [ttest_core]
    simp [gender_analysis, this]

/-- Witness for C5 amended: a dataset with no Male record returns NaN. -/
theorem gender_analysis_error_behaviour_witness :
    (gender_analysis dNoMale).1 = Except.ok WelchStat.undefinedStat :=
  (gender_analysis_error_behaviour dNoMale).2.1 (Or.inl (by decide))

/-- Claim C5 counterexample: on a dataset whose Female sample is empty,
the case the claim says fails with ValueError, gender_analysis succeeds
and returns the NaN statistic. -/
theorem gender_analysis_no_female_ok :
    gender_analysis dNoFemale = (Except.ok WelchStat.undefinedStat, dNoFemale) := rfl

/-- Two Boolean predicates that never hold together split a filter count. -/
theorem length_filter_or {α : Type} (l : List α) (p q : α → Bool)
    (hdisj : ∀ a, ¬(p a = true ∧ q a = true)) :
    (l.filter p).length + (l.filter q).length
      = (l.filter fun a => p a || q a).length := by
  induction l with
  | nil => rfl
  | cons a l ih =>
    rcases hp : p a with _ | _ <;> rcases hq : q a with _ | _
    · simp only [List.filter_cons, hp, hq, Bool.or_self, Bool.false_eq_true, if_false]
      omega
    · simp only [List.filter_cons, hp, hq, Bool.false_or, Bool.false_eq_true,
        if_false, if_true, List.length_cons]
      omega
    · simp only [List.filter_cons, hp, hq, Bool.true_or, Bool.false_eq_true,
        if_false, if_true, List.length_cons]
      omega
    · exact absurd ⟨hp, hq⟩ (hdisj a)

/-- Claim C10: gender_analysis partitions by exact string equality; the
two sample sizes add up to the count of records whose Gender is exactly
Male or Female, any record of another gender is excluded from both
samples making the sum strictly smaller than the dataset, and no error is
raised. -/
theorem gender_analysis_partition (d : List Record) :
    ((male_claims d).length + (female_claims d).length
      = (d.filter fun r => r.gender == "Male" || r.gender == "Female").length)
    ∧ ((∃ r ∈ d, r.gender ≠ "Male" ∧ r.gender ≠ "Female") →
        (male_claims d).length + (female_claims d).length < d.length)
    ∧ ∀ e, (gender_analysis d).1 ≠ Except.error e := by
  have h1 : (male_claims d).length + (female_claims d).length
      = (d.filter fun r => r.gender == "Male" || r.gender == "Female").length := by
    unfold male_claims female_claims
    rw [List.length_map, List.length_map]
    refine length_filter_or d _ _ ?_
    rintro a ⟨ha, hb⟩
    have h1 : a.gender = "Male" := by simpa using ha
    have h2 : a.gender = "Female" := by simpa using hb
    rw [h1] at h2
    exact absurd h2 (by decide)
  refine ⟨h1, ?_, fun e h => by simp [gender_analysis] at h⟩
  rintro ⟨r, hr, hm, hf⟩
  rw [h1]
  refine List.length_filter_lt_length_iff_exists.mpr ⟨r, hr, ?_⟩
  simp [hm, hf]

/-- Witness for C10: a dataset with one Male record and one record of a
third gender has sample sizes summing to 1, strictly below its size 2. -/
theorem gender_analysis_partition_witness :
    ((male_claims dOtherGender).length + (female_claims dOtherGender).length
      = (dOtherGender.filter fun r =>
          r.gender == "Male" || r.gender == "Female").length)
    ∧ (male_claims dOtherGender).length + (female_claims dOtherGender).length
        < dOtherGender.length :=
  ⟨(gender_analysis_partition dOtherGender).1,
   (gender_analysis_partition dOtherGender).2.1
     ⟨⟨"Province_A", "Other", 1⟩, by decide, by decide, by decide⟩⟩


